import Mathlib

/-!
# Verification of the Student-Expenditure-Tracker server

Shallow embedding of the Express server of this repository.  The repository
contains three variants of the server entry point:

* `src/server/index.js`                       — referred to below as `idx…`
* `src/unnamed/part_000`, first file  (1-117) — an early variant (no validation)
* `src/unnamed/part_000`, second file (118-425) — referred to below as `p0…`
  (the variant with `getFallbackAnalysis`)

plus a client-side PDF component `MyDocument` (`src/unnamed/part_001`,
third file).

Embedding conventions:
* JS numbers are modelled as `ℚ` (every amount in the claims and in the
  examples of the specification is exactly representable as a small decimal,
  where IEEE doubles and rationals agree).
* JS strings are `String`; `undefined` is `Option.none`; a JS object used as
  a dictionary (`categoryTotals`, `categories`, `weeklySpending`) is an
  association list in insertion order with unique keys, and `Object.entries`
  follows the ECMAScript own-property order: array-index keys first in
  ascending numeric order, then the remaining string keys in insertion order.
* `Array.prototype.sort` is stable in every supported runtime (ES2019);
  a stable sort for a total preorder comparator has a unique result, so it is
  modelled by `List.insertionSort`, which Mathlib proves stable.
* The JS `Date` library is external; the week-key computation of
  `getFallbackAnalysis` (`new Date(...)`, `setDate`, `toISOString`) is
  abstracted as a parameter `wk : String → Option String` mapping a date
  string to its week-start key — `none` when the pipeline throws, as
  `toISOString()` does (RangeError) for any truthy date string that
  `new Date` cannot parse.  That throw escapes the catch block of the
  async handler, so the request gets no response at all, modelled as a
  `none` response.
* Outbound calls are parameters: the generative-AI call result is an
  `AIResult` argument, the auth-provider verdict an `AuthOutcome` function.
  Each handler returns its response together with a `Bool` recording whether
  the outbound call (AI call, resp. PDF generation / handler body) ran.
-/

/-- A transaction snapshot as sent in a request body.  Fields the handlers
read: `amount`, `category`, `category_name`, `date`, `description`.
Absent JSON fields are `none`. -/
structure Tx where
  amount : ℚ
  category : Option String := none
  category_name : Option String := none
  date : Option String := none
  description : Option String := none
deriving DecidableEq, Repr

/-- JS `a || b` for a possibly-undefined string `a`: returns `b` when `a` is
`undefined` or the empty string (the falsy strings). -/
def jsOrStr (a : Option String) (b : String) : String :=
  match a with
  | none => b
  | some s => if s = "" then b else s

/-- Rendering of a possibly-undefined string inside a JS template literal:
`undefined` prints as `"undefined"`. -/
def jsUndef (o : Option String) : String := o.getD "undefined"

/-- `const category = t.category || t.category_name || "Other";`
(src/unnamed/part_000 lines 232 and 339, identical in both places). -/
def catKey (t : Tx) : String :=
  jsOrStr t.category (jsOrStr t.category_name "Other")

/-- Left-pad a digit string with zeros to width `d`
(fractional part of `toFixed`). -/
def padZeros (s : String) (d : ℕ) : String :=
  if d ≤ s.length then s else String.mk (List.replicate (d - s.length) '0') ++ s

/-- `Number.prototype.toFixed(d)` for a nonnegative rational: the integer
`n` closest to `q·10^d` (ties toward the larger `n`, as in ECMAScript),
printed with a decimal point before the last `d` digits. -/
def toFixedNN (q : ℚ) (d : ℕ) : String :=
  let n : ℤ := round (q * (10 : ℚ) ^ d)
  let m : ℕ := n.toNat
  if d = 0 then toString m
  else toString (m / 10 ^ d) ++ "." ++ padZeros (toString (m % 10 ^ d)) d

/-- `Number.prototype.toFixed(d)`: ECMAScript extracts the sign first and
rounds the magnitude. -/
def toFixed (q : ℚ) (d : ℕ) : String :=
  if q < 0 then "-" ++ toFixedNN (-q) d else toFixedNN q d

/-- `obj[k] = (obj[k] || 0) + v` on a JS dictionary modelled as an
association list in insertion order: update the value in place when the key
exists, otherwise append the new key. -/
def updAssoc : List (String × ℚ) → String → ℚ → List (String × ℚ)
  | [], k, v => [(k, v)]
  | p :: rest, k, v =>
    if p.1 = k then (k, p.2 + v) :: rest else p :: updAssoc rest k v

/--
```
const categoryTotals = {};
transactions.forEach(t => {
  const category = t.category || t.category_name || "Other";
  categoryTotals[category] = (categoryTotals[category] || 0) + t.amount;
});
```
(src/unnamed/part_000 lines 228-235; the local `categories` object of
`getFallbackAnalysis`, lines 335-342, is built by the very same code). -/
def categoryTotals (ts : List Tx) : List (String × ℚ) :=
  ts.foldl (fun m t => updAssoc m (catKey t) t.amount) []

/-- `let totalAmount = 0; transactions.forEach(t => ... totalAmount += t.amount)`
(src/unnamed/part_000 lines 229/234, and 336/341). -/
def totalAmount (ts : List Tx) : ℚ :=
  ts.foldl (fun s t => s + t.amount) 0

/-- Decimal-digit-string to number (for the numeric value of an
ECMAScript array-index property key). -/
def strToNat (s : String) : ℕ :=
  s.foldl (fun n c => n * 10 + (c.toNat - 48)) 0

/-- An ECMAScript array-index property key: the canonical decimal string of
an integer `0 ≤ n < 2^32 - 1` (all digits, no leading zero except `"0"`
itself).  Such keys are enumerated before all other string keys, in
ascending numeric order. -/
def isArrayIndexKey (s : String) : Bool :=
  decide (0 < s.length) && s.all Char.isDigit &&
    (s == "0" || decide (s.get 0 ≠ '0')) && decide (strToNat s < 2 ^ 32 - 1)

/-- Orders `(key, value)` pairs by ascending numeric key value. -/
def byKeyNumAsc (a b : String × ℚ) : Prop := strToNat a.1 ≤ strToNat b.1

instance : DecidableRel byKeyNumAsc :=
  fun a b => inferInstanceAs (Decidable (strToNat a.1 ≤ strToNat b.1))

/-- `Object.entries(obj)` under the ECMAScript own-property order
(OrdinaryOwnPropertyKeys): array-index keys first, ascending numerically,
then the remaining keys in insertion order. -/
def jsEntries (m : List (String × ℚ)) : List (String × ℚ) :=
  List.insertionSort byKeyNumAsc (m.filter fun p => isArrayIndexKey p.1) ++
    m.filter fun p => !isArrayIndexKey p.1

/-- The comparator `(a, b) => b[1] - a[1]`: descending by value. -/
def byAmountDesc (a b : String × ℚ) : Prop := b.2 ≤ a.2

instance : DecidableRel byAmountDesc :=
  fun a b => inferInstanceAs (Decidable (b.2 ≤ a.2))

instance : IsTotal (String × ℚ) byAmountDesc := ⟨fun a b => le_total b.2 a.2⟩

instance : IsTrans (String × ℚ) byAmountDesc :=
  ⟨fun _ _ _ h1 h2 => le_trans h2 h1⟩

/-- `Object.entries(categoryTotals).sort((a, b) => b[1] - a[1]).slice(0, 3)`
(src/unnamed/part_000 lines 238-240 and 344-346).  The ES2019 sort is
stable, and a stable sort for this total preorder has a unique result,
here given by insertion sort. -/
def topCategories (ts : List Tx) : List (String × ℚ) :=
  (List.insertionSort byAmountDesc (jsEntries (categoryTotals ts))).take 3

/-- The per-category sum of amounts: the sum of `t.amount` over the
transactions whose `catKey` is `c` (specification-side vocabulary for the
statements below). -/
def catSum (ts : List Tx) (c : String) : ℚ :=
  ((ts.filter fun t => catKey t == c).map Tx.amount).sum

/-- The category names of `ts` in order of first occurrence
(specification-side vocabulary for "first-seen key order"). -/
def firstSeenKeys (ks : List String) : List String :=
  ks.foldl (fun acc k => if k ∈ acc then acc else acc ++ [k]) []

/-- `const averageTransaction = totalAmount / transactions.length;`
(src/unnamed/part_000 line 348). -/
def averageTransaction (ts : List Tx) : ℚ :=
  totalAmount ts / (ts.length : ℚ)

/-- Whether the week-key pipeline can process transaction `t`: vacuously
true for a falsy (`undefined` or empty) date, otherwise the pipeline must
not throw on the date string. -/
def dateOk (wk : String → Option String) (t : Tx) : Bool :=
  match t.date with
  | none => true
  | some d => if d = "" then true else (wk d).isSome

/-- One iteration of the `weeklySpending` forEach loop
(src/unnamed/part_000 lines 352-358).  The week-key pipeline
`new Date(d)` / `setDate` / `toISOString` through the external JS `Date`
library is the parameter `wk`: `wk d = some k` when it yields the key `k`,
and `wk d = none` when `d` is a truthy string the pipeline cannot
process — `new Date(d)` is then an Invalid Date and `toISOString()` throws
a RangeError, so the loop (and the whole surrounding function call)
throws, which the model renders as a poisoning `none`. -/
def weeklyStep (wk : String → Option String)
    (om : Option (List (String × ℚ))) (t : Tx) : Option (List (String × ℚ)) :=
  match om with
  | none => none
  | some m =>
    match t.date with
    | none => some m
    | some d =>
      if d = "" then some m
      else
        match wk d with
        | none => none
        | some k => some (updAssoc m k t.amount)

/-- The `weeklySpending` object of `getFallbackAnalysis`
(src/unnamed/part_000 lines 350-359): for every transaction with a truthy
`date`, add its amount under the week-start key of that date; `none` when
the loop throws on an unparsable truthy date. -/
def weeklySpending (wk : String → Option String) (ts : List Tx) :
    Option (List (String × ℚ)) :=
  ts.foldl (weeklyStep wk) (some [])

/-- `const weeks = Object.keys(weeklySpending).length;`
(src/unnamed/part_000 line 361), on the successfully built object. -/
def weeksCount (wmap : List (String × ℚ)) : ℕ :=
  wmap.length

/-- `const avgWeeklySpend = weeks > 0 ? totalAmount / weeks : totalAmount;`
(src/unnamed/part_000 line 362). -/
def avgWeeklySpend (ts : List Tx) (wmap : List (String × ℚ)) : ℚ :=
  if 0 < weeksCount wmap then totalAmount ts / (weeksCount wmap : ℚ)
  else totalAmount ts

/-- The rendered top-category lines of the fallback analysis
(src/unnamed/part_000 lines 372-374):
`topCategories.map(([cat, amt], i) => ...).join("\n")` renders
one line per ranked category with its amount to two decimals and its share
of the total to one decimal. -/
def fallbackCategoryLines (ts : List Tx) : List String :=
  (topCategories ts).enum.map fun ip =>
    toString (ip.1 + 1) ++ ". **" ++ ip.2.1 ++ "**: `" ++ toFixed ip.2.2 2 ++
      "` *(" ++ toFixed (ip.2.2 / totalAmount ts * 100) 1 ++ "%)*"

/-- `topCategories[0]?.[0]` interpolated into a template literal:
`"undefined"` when the ranking is empty. -/
def topCatName (ts : List Tx) : String :=
  match topCategories ts with
  | [] => "undefined"
  | p :: _ => p.1

/-- The markdown template returned by `getFallbackAnalysis`
(src/unnamed/part_000 lines 364-390), rendered from the transactions and
the successfully built `weeklySpending` object. -/
def fallbackReport (ts : List Tx) (wmap : List (String × ℚ))
    (month year : Option String) : String :=
  "## 📊 Expense Analysis for " ++ jsUndef month ++ " " ++ jsUndef year ++
  "\n\n### 💰 Spending Overview\n- **Total Expenses**: `" ++
  toFixed (totalAmount ts) 2 ++
  "`\n- **Number of Transactions**: `" ++ toString ts.length ++
  "`\n- **Average per Transaction**: `" ++ toFixed (averageTransaction ts) 2 ++ "`" ++
  (if 1 < weeksCount wmap then
    "\n- **Average Weekly Spend**: `" ++ toFixed (avgWeeklySpend ts wmap) 2 ++ "`"
  else "") ++
  "\n\n### 📈 Top Spending Categories\n" ++
  String.intercalate "\n" (fallbackCategoryLines ts) ++
  "\n\n### 💡 Money-Saving Opportunities\n" ++
  "- **Track Daily Expenses**: Monitor small recurring costs that add up over time\n" ++
  "- **Set Weekly Budget**: Aim for `" ++
  toFixed (avgWeeklySpend ts wmap * (9 / 10)) 2 ++
  "` per week to save 10%\n- **Review Top Category**: Analyze your **" ++
  topCatName ts ++ "** spending for potential cuts\n\n### 🎯 Budget Recommendation\n" ++
  "Consider using the **50/30/20 budgeting rule**:\n- 50% for needs\n" ++
  "- 30% for wants  \n- 20% for savings\n\n" ++
  "This helps build better financial habits and ensures you're saving for the future.\n\n" ++
  "---\n*⚠️ Note: This is a basic analysis. AI-powered insights will be available when the service is restored.*"

/-- `function getFallbackAnalysis(transactions, month, year)`
(src/unnamed/part_000 lines 330-391), the deterministic fallback summary.
A `none` ARGUMENT means the request body had no `transactions` field
(guarded by `!transactions`).  A `none` RESULT means the function throws:
this happens exactly when some transaction has a truthy date on which the
week-key pipeline throws (lines 352-358), before any string is rendered. -/
def getFallbackAnalysis (wk : String → Option String)
    (transactions : Option (List Tx)) (month year : Option String) :
    Option String :=
  match transactions with
  | none => some "## ❌ No Data Available\n\nNo transaction data available for analysis."
  | some ts =>
    if ts.length = 0 then
      some "## ❌ No Data Available\n\nNo transaction data available for analysis."
    else
      match weeklySpending wk ts with
      | none => none
      | some wmap => some (fallbackReport ts wmap month year)

/-- The `transactions` field of a request body: absent, present but not an
array (with its JS truthiness), or an array of transactions. -/
inductive TxField where
  | missing : TxField
  | nonArray (truthy : Bool) : TxField
  | arr (txs : List Tx) : TxField
deriving DecidableEq

/-- The request body of `POST /api/generate-insights`: the two handlers
destructure `transactions`, `month`, `year` from it. -/
structure InsightsBody where
  transactions : TxField := .missing
  month : Option String := none
  year : Option String := none
deriving DecidableEq

/-- Result of the outbound `model.generateContent(prompt)` call:
`apiError` when the call rejects or yields no response object,
`ok text` when a text was produced (possibly empty). -/
inductive AIResult where
  | apiError : AIResult
  | ok (text : String) : AIResult
deriving DecidableEq

/-- A JSON response of the insights endpoint, flattened: `status` is the
HTTP status, every other field is `none` when the variant's JSON body does
not contain it.  `metaTransactionCount`/`metaPeriod` are
`meta.transactionCount`/`meta.period` of `src/server/index.js`;
`metaTotalTransactions`/`metaTotalAmount`/`metaTopCategories` are
`metadata.totalTransactions`/`metadata.totalAmount`/`metadata.topCategories`
of the part_000 variant. -/
structure InsightsResp where
  status : ℕ
  insights : Option String := none
  success : Option Bool := none
  fallback : Option Bool := none
  error : Option String := none
  metaTransactionCount : Option ℕ := none
  metaPeriod : Option String := none
  metaTotalTransactions : Option ℕ := none
  metaTotalAmount : Option String := none
  metaTopCategories : Option (List (String × String)) := none
deriving DecidableEq

/-- The catch block of the part_000 handler (lines 310-327): renders the
fallback analysis and answers 200 with `success:false`, `fallback:true`
and a fixed error note.  When `getFallbackAnalysis` itself throws (a
truthy unparsable date, line 318, reached before `res.status(200)` at
line 320), the exception escapes the catch block of the async handler and
no response is ever sent — modelled as `none`. -/
def p0CatchResp (wk : String → Option String) (ts : List Tx)
    (month year : Option String) : Option InsightsResp :=
  match getFallbackAnalysis wk (some ts) month year with
  | none => none
  | some s =>
    some { status := 200, insights := some s, success := some false,
           fallback := some true,
           error := some "AI analysis temporarily unavailable - showing basic analysis" }

/-- The handler of `POST /api/generate-insights` of src/unnamed/part_000
(second file, lines 210-327), as a function of the request body and of the
outcome of the generative-AI call.  The first component is the response
sent, `none` when the handler crashes without responding; the second
records whether the outbound AI call was made.

* `!transactions || !Array.isArray(transactions)` → 400 (lines 214-216);
* `transactions.length === 0` → the fixed no-data message (lines 218-220);
* otherwise the AI call is made; a rejected call, a missing response
  object, or an empty / whitespace-only text all reach the catch block
  (lines 310-327), modelled by `p0CatchResp`;
* a successful call with non-blank text responds 200 with the text
  verbatim and the computed metadata (lines 300-308). -/
def p0Insights (body : InsightsBody) (ai : AIResult)
    (wk : String → Option String) : Option InsightsResp × Bool :=
  match body.transactions with
  | .arr ts =>
    if ts.length = 0 then
      (some { status := 200, insights := some "No transactions available for analysis" },
       false)
    else
      match ai with
      | .ok text =>
        if text = "" ∨ text.trim = "" then
          (p0CatchResp wk ts body.month body.year, true)
        else
          (some
            { status := 200, insights := some text, success := some true,
              metaTotalTransactions := some ts.length,
              metaTotalAmount := some (toFixed (totalAmount ts) 2),
              metaTopCategories :=
                some ((topCategories ts).map fun p => (p.1, toFixed p.2 2)) },
           true)
      | .apiError => (p0CatchResp wk ts body.month body.year, true)
  | _ => (some { status := 400, error := some "Invalid transactions data" }, false)

/-- The handler of `POST /api/generate-insights` of `src/server/index.js`
(lines 93-152), as a function of the request body and of the AI-call
outcome; second component as in `p0Insights`.

* the same validation and empty-list short-circuits (lines 98-104);
* a rejected AI call throws `"AI service unavailable"`, an empty text
  throws `"Empty response from AI"`; the catch block (lines 145-151)
  responds **500** with `error: error.message`;
* a successful call with non-empty text responds 200 with the text and
  `meta: \x7b transactionCount, period \x7d` (lines 137-143). -/
def idxInsights (body : InsightsBody) (ai : AIResult) : InsightsResp × Bool :=
  match body.transactions with
  | .arr ts =>
    if ts.length = 0 then
      ({ status := 200, insights := some "No transactions available for analysis" }, false)
    else
      match ai with
      | .ok text =>
        if text = "" then
          ({ status := 500, error := some "Empty response from AI" }, true)
        else
          ({ status := 200, insights := some text,
             metaTransactionCount := some ts.length,
             metaPeriod := some (jsUndef body.month ++ " " ++ jsUndef body.year) },
           true)
      | .apiError =>
        ({ status := 500, error := some "AI service unavailable" }, true)
  | _ => ({ status := 400, error := some "Invalid transactions data" }, false)

/-- Whether the generative-AI call "raises" in the sense of the part_000
handler: the call rejected, or produced an empty / whitespace-only text
(each of which the handler turns into a thrown error). -/
def aiFailed : AIResult → Bool
  | .apiError => true
  | .ok text => text = "" || text.trim = ""

/-- The transactions whose raw lines the `src/server/index.js` prompt
embeds: `JSON.stringify(transactions.slice(0, 20), null, 2)`
(line 113) — at most the first 20. -/
def idxPromptShown (ts : List Tx) : List Tx := ts.take 20

/-- The remainder note of the `src/server/index.js` prompt (line 114):
present exactly when more than 20 transactions were supplied. -/
def idxPromptNote (ts : List Tx) : String :=
  if 20 < ts.length then
    "\n(Showing 20 of " ++ toString ts.length ++ " transactions)"
  else ""

/-- The transactions whose raw lines the part_000 prompt embeds
(src/unnamed/part_000 lines 250-253): `transactions.map(t => ...)` renders
one bullet line per transaction — all of them. -/
def p0PromptShown (ts : List Tx) : List Tx := ts

/-- The request body of `POST /api/generate-report`.  The handler
destructures only `month`, `year`, `transactions`, `summary`
(src/server/index.js line 40); `callerTotal` stands for any extra `total`
field a caller may send, which the code never reads. -/
structure ReportBody where
  month : Option String := none
  year : Option String := none
  transactions : List Tx := []
  summary : Option String := none
  callerTotal : Option ℚ := none
deriving DecidableEq

/-- `let total = 0; transactions.forEach(t => { total += t.amount; ... });`
(src/server/index.js lines 71-79). -/
def reportTotal (ts : List Tx) : ℚ :=
  ts.foldl (fun s t => s + t.amount) 0

/-- The total line printed at the end of the PDF report:
`` `Total Expenses: $${total.toFixed(2)}` `` (src/server/index.js line 83). -/
def reportTotalLine (b : ReportBody) : String :=
  "Total Expenses: $" ++ toFixed (reportTotal b.transactions) 2

/-- `const total = transactions.reduce((sum, t) => sum + t.amount, 0);` of
the client-side `MyDocument` component (src/unnamed/part_001 line 136). -/
def myDocumentTotal (ts : List Tx) : ℚ :=
  ts.foldl (fun sum t => sum + t.amount) 0

/-- The total line of `MyDocument`:
`Total Expenses: ${total.toFixed(2)}` with a dollar sign
(src/unnamed/part_001 line 179).  `MyDocument` receives only
`transactions, month, year, summary` as props — there is no total prop. -/
def myDocumentTotalLine (ts : List Tx) : String :=
  "Total Expenses: $" ++ toFixed (myDocumentTotal ts) 2

/-- The response of the report endpoint, reduced to what the claims are
about: the HTTP status, the printed total line when a PDF is produced,
and the error body otherwise. -/
structure ReportResp where
  status : ℕ
  totalLine : Option String := none
  error : Option String := none
deriving DecidableEq

/-- The handler of `POST /api/generate-report` (src/server/index.js
lines 38-90, identical in both part_000 files): streams the PDF whose
final line is `reportTotalLine` (the PDF library itself is external; its
own failure path, lines 86-89, is not claim-relevant).  The second
component records that the PDF document was generated. -/
def generateReport (b : ReportBody) : ReportResp × Bool :=
  ({ status := 200, totalLine := some (reportTotalLine b) }, true)

/-- `const token = req.headers.authorization?.split(' ')[1];` followed by
the falsy check `if (!token)` (src/server/index.js lines 24-25): `none`
when the header is absent, has no second blank-separated part, or that
part is the empty string. -/
def extractToken (authorization : Option String) : Option String :=
  match authorization with
  | none => none
  | some s =>
    match (s.splitOn " ").get? 1 with
    | none => none
    | some t => if t = "" then none else some t

/-- Verdict of `supabase.auth.getUser(token)`: `authOk` when it returns
without error (the resolved user may still be null — the middleware
attaches it without inspection), `authErr` when it returns an error or the
call rejects (both reach the catch block). -/
inductive AuthOutcome where
  | authOk : AuthOutcome
  | authErr : AuthOutcome
deriving DecidableEq

/-- The `authenticateJWT` middleware (src/server/index.js lines 23-35,
identical in both part_000 files): `some (status, body)` when it responds
itself (rejecting the request), `none` when it calls `next()`. -/
def authenticateJWT (authorization : Option String)
    (verdict : String → AuthOutcome) : Option (ℕ × String) :=
  match extractToken authorization with
  | none => some (401, "Unauthorized")
  | some t =>
    match verdict t with
    | .authOk => none
    | .authErr => some (401, "Unauthorized")

/-- `POST /api/generate-insights` of part_000 behind `authenticateJWT`.
Components: response, handler-ran flag, AI-called flag. -/
def protectedP0Insights (authorization : Option String)
    (verdict : String → AuthOutcome) (body : InsightsBody) (ai : AIResult)
    (wk : String → Option String) : Option InsightsResp × Bool × Bool :=
  match authenticateJWT authorization verdict with
  | some (s, e) => (some { status := s, error := some e }, false, false)
  | none => ((p0Insights body ai wk).1, true, (p0Insights body ai wk).2)

/-- `POST /api/generate-insights` of `src/server/index.js` behind
`authenticateJWT`.  Components: response, handler-ran flag, AI-called
flag. -/
def protectedIdxInsights (authorization : Option String)
    (verdict : String → AuthOutcome) (body : InsightsBody) (ai : AIResult) :
    InsightsResp × Bool × Bool :=
  match authenticateJWT authorization verdict with
  | some (s, e) => ({ status := s, error := some e }, false, false)
  | none => ((idxInsights body ai).1, true, (idxInsights body ai).2)

/-- `POST /api/generate-report` behind `authenticateJWT`.  Components:
response, handler-ran flag, PDF-generated flag. -/
def protectedReport (authorization : Option String)
    (verdict : String → AuthOutcome) (b : ReportBody) :
    ReportResp × Bool × Bool :=
  match authenticateJWT authorization verdict with
  | some (s, e) => ({ status := s, error := some e }, false, false)
  | none => ((generateReport b).1, true, (generateReport b).2)

/-- Value a JS dictionary read `obj[c] || 0` would see: the stored value,
or `0` when the key is absent (keys are unique in the model). -/
def lookupQ : List (String × ℚ) → String → ℚ
  | [], _ => 0
  | p :: rest, c => if p.1 = c then p.2 else lookupQ rest c

theorem foldl_add_amount (ts : List Tx) :
    ∀ s : ℚ, ts.foldl (fun a t => a + t.amount) s = s + (ts.map Tx.amount).sum := by
  induction ts with
  | nil => intro s; simp
  | cons t ts ih => intro s; simp [List.foldl_cons, ih, List.sum_cons]; ring

/-- The accumulated total is the sum of the amounts. -/
theorem totalAmount_eq_sum (ts : List Tx) :
    totalAmount ts = (ts.map Tx.amount).sum := by
  simpa using foldl_add_amount ts 0

theorem map_fst_updAssoc (m : List (String × ℚ)) (k : String) (v : ℚ) :
    (updAssoc m k v).map Prod.fst =
      if k ∈ m.map Prod.fst then m.map Prod.fst else m.map Prod.fst ++ [k] := by
  induction m with
  | nil => simp [updAssoc]
  | cons p rest ih =>
    by_cases h : p.1 = k
    · simp [updAssoc, h]
    · simp only [updAssoc, if_neg h, List.map_cons, ih, List.mem_cons]
      by_cases hk : k ∈ rest.map Prod.fst
      · simp [hk, Ne.symm h]
      · simp [hk, Ne.symm h]

theorem lookupQ_updAssoc (m : List (String × ℚ)) (k c : String) (v : ℚ) :
    lookupQ (updAssoc m k v) c = lookupQ m c + if k = c then v else 0 := by
  induction m with
  | nil =>
    simp only [updAssoc, lookupQ]
    split <;> simp
  | cons p rest ih =>
    by_cases h : p.1 = k
    · simp only [updAssoc, if_pos h, lookupQ]
      by_cases hc : k = c
      · rw [if_pos hc, if_pos hc, if_pos (h.trans hc)]
      · rw [if_neg hc, if_neg hc, if_neg (fun e => hc (h.symm.trans e))]; ring
    · simp only [updAssoc, if_neg h, lookupQ]
      by_cases hc : p.1 = c
      · rw [if_pos hc, if_pos hc, if_neg (fun e => h (hc.trans e.symm))]; ring
      · rw [if_neg hc, if_neg hc, ih]

theorem sum_snd_updAssoc (m : List (String × ℚ)) (k : String) (v : ℚ) :
    ((updAssoc m k v).map Prod.snd).sum = (m.map Prod.snd).sum + v := by
  induction m with
  | nil => simp [updAssoc]
  | cons p rest ih =>
    by_cases h : p.1 = k
    · simp [updAssoc, h, List.sum_cons]; ring
    · simp [updAssoc, h, List.sum_cons, ih]; ring

theorem nodup_fst_updAssoc (m : List (String × ℚ)) (k : String) (v : ℚ)
    (h : (m.map Prod.fst).Nodup) : ((updAssoc m k v).map Prod.fst).Nodup := by
  rw [map_fst_updAssoc]
  by_cases hk : k ∈ m.map Prod.fst
  · simpa [hk] using h
  · simpa [hk, List.nodup_append] using h

theorem catSum_cons (t : Tx) (ts : List Tx) (c : String) :
    catSum (t :: ts) c = (if catKey t = c then t.amount else 0) + catSum ts c := by
  by_cases h : catKey t = c <;> simp [catSum, List.filter_cons, h, List.sum_cons]

theorem lookupQ_categoryTotals_aux (ts : List Tx) :
    ∀ (m : List (String × ℚ)) (c : String),
      lookupQ (ts.foldl (fun m t => updAssoc m (catKey t) t.amount) m) c =
        lookupQ m c + catSum ts c := by
  induction ts with
  | nil => intro m c; simp [catSum]
  | cons t ts ih =>
    intro m c
    simp only [List.foldl_cons, ih, lookupQ_updAssoc, catSum_cons]
    ring

/-- A `categoryTotals` entry holds exactly the per-category sum. -/
theorem lookupQ_categoryTotals (ts : List Tx) (c : String) :
    lookupQ (categoryTotals ts) c = catSum ts c := by
  simpa [lookupQ] using lookupQ_categoryTotals_aux ts [] c

theorem nodup_fst_categoryTotals (ts : List Tx) :
    ((categoryTotals ts).map Prod.fst).Nodup := by
  have : ∀ m : List (String × ℚ), (m.map Prod.fst).Nodup →
      ((ts.foldl (fun m t => updAssoc m (catKey t) t.amount) m).map Prod.fst).Nodup := by
    induction ts with
    | nil => intro m h; simpa using h
    | cons t ts ih =>
      intro m h
      exact ih _ (nodup_fst_updAssoc _ _ _ h)
  simpa [categoryTotals] using this [] (by simp)

theorem lookupQ_of_mem {m : List (String × ℚ)} {c : String} {q : ℚ}
    (hmem : (c, q) ∈ m) (hnd : (m.map Prod.fst).Nodup) : lookupQ m c = q := by
  induction m with
  | nil => cases hmem
  | cons p rest ih =>
    have hnd' : p.1 ∉ rest.map Prod.fst ∧ (rest.map Prod.fst).Nodup := by
      simpa using hnd
    rcases List.mem_cons.mp hmem with h | h
    · simp [lookupQ, ← h]
    · have hne : ¬ p.1 = c := by
        intro e
        have hc : c ∈ rest.map Prod.fst := List.mem_map.mpr ⟨(c, q), h, rfl⟩
        exact hnd'.1 (e.symm ▸ hc)
      simp [lookupQ, hne, ih h hnd'.2]

/-- Every entry of `categoryTotals` carries the per-category sum of the
input. -/
theorem mem_categoryTotals_catSum {ts : List Tx} {c : String} {q : ℚ}
    (h : (c, q) ∈ categoryTotals ts) : q = catSum ts c := by
  rw [← lookupQ_categoryTotals ts c, lookupQ_of_mem h (nodup_fst_categoryTotals ts)]

theorem sum_snd_categoryTotals (ts : List Tx) :
    ((categoryTotals ts).map Prod.snd).sum = totalAmount ts := by
  have : ∀ m : List (String × ℚ),
      (((ts.foldl (fun m t => updAssoc m (catKey t) t.amount) m).map Prod.snd).sum) =
        (m.map Prod.snd).sum + (ts.map Tx.amount).sum := by
    induction ts with
    | nil => intro m; simp
    | cons t ts ih =>
      intro m
      simp only [List.foldl_cons, ih, sum_snd_updAssoc, List.map_cons, List.sum_cons]
      ring
  simpa [categoryTotals, totalAmount_eq_sum] using this []

theorem mem_jsEntries {m : List (String × ℚ)} {p : String × ℚ} :
    p ∈ jsEntries m ↔ p ∈ m := by
  constructor
  · intro h
    rcases List.mem_append.mp h with h | h
    · exact (List.mem_filter.mp ((List.mem_insertionSort _).mp h)).1
    · exact (List.mem_filter.mp h).1
  · intro h
    by_cases hk : isArrayIndexKey p.1
    · exact List.mem_append.mpr (.inl ((List.mem_insertionSort _).mpr
        (List.mem_filter.mpr ⟨h, hk⟩)))
    · exact List.mem_append.mpr (.inr (List.mem_filter.mpr ⟨h, by simp [hk]⟩))

theorem jsEntries_of_no_index {m : List (String × ℚ)}
    (h : ∀ p ∈ m, isArrayIndexKey p.1 = false) : jsEntries m = m := by
  have h1 : m.filter (fun p => isArrayIndexKey p.1) = [] :=
    List.filter_eq_nil_iff.mpr (by intro p hp; simp [h p hp])
  have h2 : m.filter (fun p => !isArrayIndexKey p.1) = m :=
    List.filter_eq_self.mpr (by intro p hp; simp [h p hp])
  simp [jsEntries, h1, h2]

theorem map_fst_categoryTotals (ts : List Tx) :
    (categoryTotals ts).map Prod.fst = firstSeenKeys (ts.map catKey) := by
  have : ∀ m : List (String × ℚ),
      ((ts.foldl (fun m t => updAssoc m (catKey t) t.amount) m).map Prod.fst) =
        (ts.map catKey).foldl (fun acc k => if k ∈ acc then acc else acc ++ [k])
          (m.map Prod.fst) := by
    induction ts with
    | nil => intro m; simp
    | cons t ts ih =>
      intro m
      simp only [List.foldl_cons, ih, map_fst_updAssoc, List.map_cons]
  simpa [categoryTotals, firstSeenKeys] using this []

theorem strNeEmptyLeft {a : String} (b : String) (h : a ≠ "") : a ++ b ≠ "" := by
  intro e
  apply h
  apply String.ext
  have hd := congrArg String.data e
  rw [String.data_append] at hd
  have hnil : a.data ++ b.data = [] := hd
  simpa using (List.append_eq_nil.mp hnil).1

/-- The rendered fallback template is never the empty string: it begins
with a fixed non-empty heading. -/
theorem fallbackReport_ne_empty (ts : List Tx) (wmap : List (String × ℚ))
    (month year : Option String) : fallbackReport ts wmap month year ≠ "" := by
  simp only [fallbackReport]
  repeat' apply strNeEmptyLeft
  decide

theorem foldl_weeklyStep_none (wk : String → Option String) (ts : List Tx) :
    ts.foldl (weeklyStep wk) none = none := by
  induction ts with
  | nil => rfl
  | cons t ts ih => simpa [List.foldl_cons, weeklyStep] using ih

/-- When every truthy date of the list is one the week-key pipeline can
process, the `weeklySpending` loop completes. -/
theorem weeklySpending_isSome (wk : String → Option String) (ts : List Tx)
    (hok : ∀ t ∈ ts, dateOk wk t = true) :
    ∃ wmap, weeklySpending wk ts = some wmap := by
  have haux : ∀ (us : List Tx), (∀ t ∈ us, dateOk wk t = true) →
      ∀ m, ∃ wmap, us.foldl (weeklyStep wk) (some m) = some wmap := by
    intro us
    induction us with
    | nil => exact fun _ m => ⟨m, rfl⟩
    | cons t us ih =>
      intro hoku m
      have ht : dateOk wk t = true := hoku t (List.mem_cons_self t us)
      have hstep : ∃ m2, weeklyStep wk (some m) t = some m2 := by
        cases hd : t.date with
        | none => exact ⟨m, by simp [weeklyStep, hd]⟩
        | some d =>
          by_cases hde : d = ""
          · exact ⟨m, by simp [weeklyStep, hd, hde]⟩
          · have ht' : (wk d).isSome = true := by
              simpa [dateOk, hd, hde] using ht
            cases hwk : wk d with
            | none => rw [hwk] at ht'; simp at ht'
            | some k =>
              exact ⟨updAssoc m k t.amount, by simp [weeklyStep, hd, hde, hwk]⟩
      obtain ⟨m2, hm2⟩ := hstep
      rw [List.foldl_cons, hm2]
      exact ih (fun u hu => hoku u (List.mem_cons_of_mem t hu)) m2
  exact haux ts hok []

/-- One transaction with a truthy unparsable date makes the
`weeklySpending` loop throw. -/
theorem weeklySpending_eq_none (wk : String → Option String) {ts : List Tx}
    {t : Tx} (ht : t ∈ ts) (hbad : dateOk wk t = false) :
    weeklySpending wk ts = none := by
  have haux : ∀ (us : List Tx), t ∈ us →
      ∀ om, us.foldl (weeklyStep wk) om = none := by
    intro us
    induction us with
    | nil => intro h; cases h
    | cons u us ih =>
      intro hmem om
      rcases List.mem_cons.mp hmem with rfl | hmem'
      · have hstep : weeklyStep wk om t = none := by
          cases om with
          | none => rfl
          | some m =>
            cases hd : t.date with
            | none => simp [dateOk, hd] at hbad
            | some d =>
              by_cases hde : d = ""
              · simp [dateOk, hd, hde] at hbad
              · have hb' : (wk d).isSome = false := by
                  simpa [dateOk, hd, hde] using hbad
                cases hwk : wk d with
                | some k => rw [hwk] at hb'; simp at hb'
                | none => simp [weeklyStep, hd, hde, hwk]
        rw [List.foldl_cons, hstep]
        exact foldl_weeklyStep_none wk us
      · rw [List.foldl_cons]
        exact ih hmem' _
  exact haux ts ht (some [])

/-- `getFallbackAnalysis` on a non-empty list with processable dates:
returns the non-empty rendered template. -/
theorem getFallbackAnalysis_ok (wk : String → Option String) (ts : List Tx)
    (month year : Option String) (h0 : ¬ ts.length = 0)
    (hok : ∀ t ∈ ts, dateOk wk t = true) :
    ∃ s, getFallbackAnalysis wk (some ts) month year = some s ∧ s ≠ "" := by
  obtain ⟨wmap, hw⟩ := weeklySpending_isSome wk ts hok
  refine ⟨fallbackReport ts wmap month year, ?_,
    fallbackReport_ne_empty ts wmap month year⟩
  simp only [getFallbackAnalysis]
  rw [if_neg h0, hw]

/-- `getFallbackAnalysis` throws when some transaction has a truthy date
the week-key pipeline cannot process. -/
theorem getFallbackAnalysis_throws (wk : String → Option String)
    {ts : List Tx} {t : Tx} (month year : Option String) (ht : t ∈ ts)
    (hbad : dateOk wk t = false) :
    getFallbackAnalysis wk (some ts) month year = none := by
  have h0 : ¬ ts.length = 0 := by
    intro h
    rw [List.length_eq_zero] at h
    subst h
    cases ht
  simp only [getFallbackAnalysis]
  rw [if_neg h0, weeklySpending_eq_none wk ht hbad]

/-- The spec's worked example: `[{amount:12.50,category:"Food"},
{amount:40,category:"Rent"}]`. -/
def exC2 : List Tx :=
  [{ amount := 12.5, category := some "Food" }, { amount := 40, category := some "Rent" }]

/-- C2: for every transaction list the fallback summary's total is the sum
of all amounts (hence so is its two-decimal rendering), its top-category
ranking is sorted by descending per-category sum and each ranked entry
carries exactly its per-category sum; on the spec's example the rendered
total is "52.50" and the top category is "Rent" at 76.2% of spend. -/
theorem claim_C2 :
    (∀ ts : List Tx,
      totalAmount ts = (ts.map Tx.amount).sum ∧
      toFixed (totalAmount ts) 2 = toFixed ((ts.map Tx.amount).sum) 2 ∧
      List.Sorted byAmountDesc (topCategories ts) ∧
      ∀ p ∈ topCategories ts, p.2 = catSum ts p.1) ∧
    toFixed (totalAmount exC2) 2 = "52.50" ∧
    topCategories exC2 = [("Rent", 40), ("Food", 12.5)] ∧
    toFixed (40 / totalAmount exC2 * 100) 1 = "76.2" ∧
    fallbackCategoryLines exC2 =
      ["1. **Rent**: `40.00` *(76.2%)*", "2. **Food**: `12.50` *(23.8%)*"] := by
  refine ⟨?_, ?_, ?_, ?_, ?_⟩
  · intro ts
    refine ⟨totalAmount_eq_sum ts, by rw [totalAmount_eq_sum], ?_, ?_⟩
    · exact List.Pairwise.sublist (List.take_sublist 3 _)
        (List.sorted_insertionSort byAmountDesc _)
    · intro p hp
      obtain ⟨c, q⟩ := p
      exact mem_categoryTotals_catSum
        (mem_jsEntries.mp ((List.mem_insertionSort _).mp
          ((List.take_sublist 3 _).subset hp)))
  · with_unfolding_all decide
  · with_unfolding_all decide
  · with_unfolding_all decide
  · with_unfolding_all decide

/-- Witness for C2 at the spec's example: the ranked "Rent" entry carries
the per-category sum 40. -/
theorem claim_C2_witness : (40 : ℚ) = catSum exC2 "Rent" :=
  (claim_C2.1 exC2).2.2.2 ("Rent", 40) (by with_unfolding_all decide)

/-- C3: an empty transactions array makes both insights handlers return
the fixed no-data message with status 200, and the AI-called flag is
false. -/
theorem claim_C3 :
    ∀ (m y : Option String) (ai : AIResult) (wk : String → Option String),
      p0Insights { transactions := .arr [], month := m, year := y } ai wk =
        (some { status := 200, insights := some "No transactions available for analysis" },
         false) ∧
      idxInsights { transactions := .arr [], month := m, year := y } ai =
        ({ status := 200, insights := some "No transactions available for analysis" },
         false) := by
  intro m y ai wk
  exact ⟨rfl, rfl⟩

/-- C4: the report total (server variants and client `MyDocument` alike)
is the sum of the amounts of the supplied transactions, and the printed
total line does not depend on any caller-supplied total field. -/
theorem claim_C4 :
    ∀ b : ReportBody,
      reportTotal b.transactions = (b.transactions.map Tx.amount).sum ∧
      reportTotalLine b =
        "Total Expenses: $" ++ toFixed ((b.transactions.map Tx.amount).sum) 2 ∧
      (∀ q : Option ℚ, reportTotalLine { b with callerTotal := q } = reportTotalLine b) ∧
      myDocumentTotal b.transactions = (b.transactions.map Tx.amount).sum ∧
      myDocumentTotalLine b.transactions =
        "Total Expenses: $" ++ toFixed ((b.transactions.map Tx.amount).sum) 2 := by
  intro b
  have h1 : reportTotal b.transactions = (b.transactions.map Tx.amount).sum := by
    simpa using foldl_add_amount b.transactions 0
  have h2 : myDocumentTotal b.transactions = (b.transactions.map Tx.amount).sum := by
    simpa using foldl_add_amount b.transactions 0
  exact ⟨h1, by simp [reportTotalLine, h1], fun q => rfl, h2,
    by simp [myDocumentTotalLine, h2]⟩

/-- C8: a missing or non-array `transactions` field makes both insights
handlers answer 400 with the fixed validation error, without calling the
AI provider. -/
theorem claim_C8 :
    ∀ (body : InsightsBody) (ai : AIResult) (wk : String → Option String),
      (∀ l, body.transactions ≠ .arr l) →
      p0Insights body ai wk =
        (some { status := 400, error := some "Invalid transactions data" }, false) ∧
      idxInsights body ai =
        ({ status := 400, error := some "Invalid transactions data" }, false) := by
  intro body ai wk h
  obtain ⟨tf, m, y⟩ := body
  cases tf with
  | missing => exact ⟨rfl, rfl⟩
  | nonArray f => exact ⟨rfl, rfl⟩
  | arr l => exact absurd rfl (h l)

/-- Witness for C8: the missing-field body is rejected with 400. -/
theorem claim_C8_witness :
    p0Insights { transactions := .missing } .apiError (fun _ => none) =
      (some { status := 400, error := some "Invalid transactions data" }, false) :=
  (claim_C8 { transactions := .missing } .apiError (fun _ => none)
    (fun _ h => nomatch h)).1

/-- C10: the per-category totals partition the total spend (their values
sum to it), every transaction with neither `category` nor `category_name`
is keyed under "Other", and each entry of the per-category table is the
per-category sum. -/
theorem claim_C10 :
    ∀ ts : List Tx,
      ((categoryTotals ts).map Prod.snd).sum = totalAmount ts ∧
      (∀ t ∈ ts, t.category = none → t.category_name = none → catKey t = "Other") ∧
      (∀ c q, (c, q) ∈ categoryTotals ts → q = catSum ts c) := by
  intro ts
  refine ⟨sum_snd_categoryTotals ts, ?_, ?_⟩
  · intro t _ h1 h2
    simp [catKey, h1, h2, jsOrStr]
  · intro c q h
    exact mem_categoryTotals_catSum h

/-- Witness for C10: a transaction with no category fields lands in
"Other". -/
theorem claim_C10_witness : catKey { amount := 7 } = "Other" :=
  (claim_C10 [{ amount := 7 }]).2.1 _ (List.mem_singleton.mpr rfl) rfl rfl

/-- C5: whenever the bearer token is missing or the auth provider does not
return a clean verdict, every protected endpoint answers 401 with the
generic "Unauthorized" body; the handler body never runs, so no AI call is
made and no PDF is generated. -/
theorem claim_C5 :
    ∀ (authorization : Option String) (verdict : String → AuthOutcome)
      (body : InsightsBody) (ai : AIResult) (wk : String → Option String) (rb : ReportBody),
      (∀ t, extractToken authorization = some t → verdict t = .authErr) →
      protectedP0Insights authorization verdict body ai wk =
        (some { status := 401, error := some "Unauthorized" }, false, false) ∧
      protectedIdxInsights authorization verdict body ai =
        ({ status := 401, error := some "Unauthorized" }, false, false) ∧
      protectedReport authorization verdict rb =
        ({ status := 401, error := some "Unauthorized" }, false, false) := by
  intro authorization verdict body ai wk rb h
  have hgate : authenticateJWT authorization verdict = some (401, "Unauthorized") := by
    unfold authenticateJWT
    cases he : extractToken authorization with
    | none => rfl
    | some t => simp [h t he]
  refine ⟨?_, ?_, ?_⟩ <;>
    simp [protectedP0Insights, protectedIdxInsights, protectedReport, hgate]

/-- Witness for C5: a request with no Authorization header is rejected
with 401 and neither handler effect happens. -/
theorem claim_C5_witness :
    protectedP0Insights none (fun _ => .authErr) { transactions := .arr [] }
        .apiError (fun _ => none) =
      (some { status := 401, error := some "Unauthorized" }, false, false) :=
  (claim_C5 none (fun _ => .authErr) { transactions := .arr [] } .apiError
    (fun _ => none) { } (fun _ h => nomatch h)).1

/-- A one-transaction body on which the AI call is made. -/
def exC1 : InsightsBody :=
  { transactions := .arr [{ amount := 5, category := some "Food" }] }

/-- C1, counterexample: in the `src/server/index.js` variant of the
insights endpoint, a failing AI call yields HTTP 500 with a raw error
body — not 200, no `fallback` flag, no insights text. -/
theorem claim_C1_counterexample :
    (idxInsights exC1 .apiError).1.status = 500 ∧
    (idxInsights exC1 .apiError).1.fallback = none ∧
    (idxInsights exC1 .apiError).1.insights = none ∧
    (idxInsights exC1 .apiError).1.error = some "AI service unavailable" :=
  ⟨rfl, rfl, rfl, rfl⟩

/-- C1, amended: in the part_000 variant, whenever the AI call is actually
made and fails (rejection, empty or whitespace-only text), then: provided
every transaction's truthy date is one the `Date` week-key pipeline can
process, the endpoint answers 200 with `fallback:true` and a non-empty
insights text; but when some transaction has a truthy date the pipeline
throws on, `getFallbackAnalysis` raises inside the catch block before
`res.status(200)` runs and the endpoint sends no response at all. -/
theorem claim_C1_amended :
    ∀ (body : InsightsBody) (ts : List Tx) (ai : AIResult) (wk : String → Option String),
      body.transactions = .arr ts →
      (p0Insights body ai wk).2 = true →
      aiFailed ai = true →
      ((∀ t ∈ ts, dateOk wk t = true) →
        ∃ s, (p0Insights body ai wk).1 =
            some
              { status := 200, insights := some s, success := some false,
                fallback := some true,
                error := some "AI analysis temporarily unavailable - showing basic analysis" } ∧
          s ≠ "") ∧
      ((∃ t ∈ ts, dateOk wk t = false) → (p0Insights body ai wk).1 = none) := by
  intro body ts ai wk htx hcall hfail
  obtain ⟨tf, m, y⟩ := body
  simp only [InsightsBody.transactions] at htx
  subst htx
  by_cases h0 : ts.length = 0
  · simp [p0Insights, h0] at hcall
  · have hresp : (p0Insights ⟨.arr ts, m, y⟩ ai wk).1 = p0CatchResp wk ts m y := by
      cases ai with
      | apiError => simp [p0Insights, h0]
      | ok text =>
        have hblank : text = "" ∨ text.trim = "" := by
          simpa [aiFailed] using hfail
        simp [p0Insights, h0, if_pos hblank]
    constructor
    · intro hok
      obtain ⟨s, hs, hne⟩ := getFallbackAnalysis_ok wk ts m y h0 hok
      exact ⟨s, by rw [hresp]; simp [p0CatchResp, hs], hne⟩
    · rintro ⟨t, ht, hbad⟩
      rw [hresp]
      simp [p0CatchResp, getFallbackAnalysis_throws wk m y ht hbad]

/-- A one-transaction body whose date the week-key pipeline throws on. -/
def exC1g : InsightsBody :=
  { transactions := .arr
      [{ amount := 5, category := some "Food", date := some "garbage" }] }

/-- Witness for C1 at two concrete failing calls: one without dates
(fallback sent), one with a truthy unparsable date (no response). -/
theorem claim_C1_witness :
    (∃ s, (p0Insights exC1 .apiError (fun _ => none)).1 =
        some { status := 200, insights := some s, success := some false,
               fallback := some true,
               error := some "AI analysis temporarily unavailable - showing basic analysis" } ∧
      s ≠ "") ∧
    (p0Insights exC1g .apiError (fun _ => none)).1 = none :=
  ⟨(claim_C1_amended exC1 [{ amount := 5, category := some "Food" }] .apiError
      (fun _ => none) rfl rfl rfl).1 (by decide),
   (claim_C1_amended exC1g
      [{ amount := 5, category := some "Food", date := some "garbage" }] .apiError
      (fun _ => none) rfl rfl rfl).2
     ⟨{ amount := 5, category := some "Food", date := some "garbage" },
      List.mem_singleton.mpr rfl, by decide⟩⟩

/-- A two-transaction body for the success-path claims. -/
def exC9 : InsightsBody :=
  { transactions := .arr
      [{ amount := 12.5, category := some "Food" }, { amount := 40, category := some "Rent" }],
    month := some "May", year := some "2025" }

/-- C9, counterexample: on a successful AI call, the `src/server/index.js`
variant returns the text verbatim but its metadata carries only the
transaction count and the period — no total spend and no top
categories. -/
theorem claim_C9_counterexample :
    (idxInsights exC9 (.ok "Spending looks fine.")).1.insights =
      some "Spending looks fine." ∧
    (idxInsights exC9 (.ok "Spending looks fine.")).1.metaTransactionCount = some 2 ∧
    (idxInsights exC9 (.ok "Spending looks fine.")).1.metaTotalAmount = none ∧
    (idxInsights exC9 (.ok "Spending looks fine.")).1.metaTopCategories = none :=
  ⟨rfl, rfl, rfl, rfl⟩

/-- C9, amended: on a successful AI call with non-blank text for a
non-empty list, the part_000 variant returns the text verbatim together
with the transaction count, the rendered total spend and the rendered top
categories; the `src/server/index.js` variant returns the text verbatim
with only the transaction count and the period. -/
theorem claim_C9_amended :
    ∀ (body : InsightsBody) (ts : List Tx) (text : String) (wk : String → Option String),
      body.transactions = .arr ts → ts ≠ [] → ¬ text = "" → ¬ text.trim = "" →
      p0Insights body (.ok text) wk =
        (some
          { status := 200, insights := some text, success := some true,
            metaTotalTransactions := some ts.length,
            metaTotalAmount := some (toFixed (totalAmount ts) 2),
            metaTopCategories :=
              some ((topCategories ts).map fun p => (p.1, toFixed p.2 2)) },
         true) ∧
      idxInsights body (.ok text) =
        ({ status := 200, insights := some text,
           metaTransactionCount := some ts.length,
           metaPeriod := some (jsUndef body.month ++ " " ++ jsUndef body.year) },
         true) := by
  intro body ts text wk htx hne ht1 ht2
  obtain ⟨tf, m, y⟩ := body
  simp only [InsightsBody.transactions] at htx
  subst htx
  have h0 : ¬ ts.length = 0 := by simpa [List.length_eq_zero] using hne
  constructor
  · simp [p0Insights, h0, ht1, ht2]
  · simp [idxInsights, h0, ht1]

/-- Witness for C9 at a concrete successful call. -/
theorem claim_C9_witness :
    p0Insights exC9 (.ok "All good.") (fun _ => none) =
      (some
        { status := 200, insights := some "All good.", success := some true,
          metaTotalTransactions := some 2,
          metaTotalAmount := some "52.50",
          metaTopCategories := some [("Rent", "40.00"), ("Food", "12.50")] },
       true) := by
  have h := (claim_C9_amended exC9
    [{ amount := 12.5, category := some "Food" }, { amount := 40, category := some "Rent" }]
    "All good." (fun _ => none) rfl (List.cons_ne_nil _ _) (by decide)
    (by with_unfolding_all decide)).1
  rw [h]
  have h2 : topCategories
      [{ amount := 12.5, category := some "Food" }, { amount := 40, category := some "Rent" }] =
      [("Rent", 40), ("Food", 12.5)] := by with_unfolding_all decide
  have h3 : toFixed (totalAmount
      [{ amount := 12.5, category := some "Food" }, { amount := 40, category := some "Rent" }]) 2 =
      "52.50" := by with_unfolding_all decide
  simp [h2, h3]
  constructor <;> with_unfolding_all decide

/-- Two tied categories whose names are ECMAScript array-index strings:
`"7"` is seen first, `"3"` second. -/
def exC6 : List Tx :=
  [{ amount := 10, category := some "7" }, { amount := 10, category := some "3" }]

/-- C6, counterexample: with tied totals for the categories `"7"` (first
seen) and `"3"`, the ranking lists `"3"` before `"7"` — `Object.entries`
enumerates array-index keys first in ascending numeric order, so the
first-seen order is not respected for such names. -/
theorem claim_C6_counterexample :
    firstSeenKeys (exC6.map catKey) = ["7", "3"] ∧
    topCategories exC6 = [("3", 10), ("7", 10)] := by
  constructor <;> with_unfolding_all decide

/-- C6, amended: the per-category table is keyed in first-seen order, the
top-N ranking is the 3-element prefix of the stably sorted entry list,
and — provided no involved category name is an ECMAScript array-index
string — two tied categories keep their first-seen relative order in the
sorted ranking. -/
theorem claim_C6_amended :
    ∀ (ts : List Tx) (c1 c2 : String) (q : ℚ),
      (categoryTotals ts).map Prod.fst = firstSeenKeys (ts.map catKey) ∧
      topCategories ts =
        (List.insertionSort byAmountDesc (jsEntries (categoryTotals ts))).take 3 ∧
      ((∀ p ∈ categoryTotals ts, isArrayIndexKey p.1 = false) →
        List.Sublist [(c1, q), (c2, q)] (categoryTotals ts) →
        List.Sublist [(c1, q), (c2, q)]
          (List.insertionSort byAmountDesc (jsEntries (categoryTotals ts)))) := by
  intro ts c1 c2 q
  refine ⟨map_fst_categoryTotals ts, rfl, ?_⟩
  intro hno hsub
  rw [jsEntries_of_no_index hno]
  exact List.pair_sublist_insertionSort (le_refl q) hsub

/-- Tied categories with ordinary (non-numeric) names. -/
def exC6W : List Tx :=
  [{ amount := 4, category := some "Food" }, { amount := 4, category := some "Rent" }]

/-- Witness for C6 on ordinary names: the tied pair Food-before-Rent
survives the sort. -/
theorem claim_C6_witness :
    List.Sublist [("Food", (4 : ℚ)), ("Rent", 4)]
      (List.insertionSort byAmountDesc (jsEntries (categoryTotals exC6W))) :=
  (claim_C6_amended exC6W "Food" "Rent" 4).2.2
    (by with_unfolding_all decide) (by with_unfolding_all decide)

/-- A single concrete transaction for the prompt-size claim. -/
def exC7 : Tx := { amount := 1, category := some "Misc" }

/-- C7, counterexample: the part_000 prompt renders one raw line per
transaction, so 21 supplied transactions put 21 raw transaction lines into
the prompt — above the 20-line bound the `src/server/index.js` variant
enforces on the same input. -/
theorem claim_C7_counterexample :
    (p0PromptShown (List.replicate 21 exC7)).length = 21 ∧
    (idxPromptShown (List.replicate 21 exC7)).length = 20 := by
  constructor <;> simp [p0PromptShown, idxPromptShown]

/-- C7, amended: the `src/server/index.js` prompt embeds at most the first
20 raw transaction lines and summarizes any remainder by a count note,
while the part_000 prompt embeds one raw line for every supplied
transaction (no fixed bound). -/
theorem claim_C7_amended :
    ∀ ts : List Tx,
      (idxPromptShown ts).length ≤ 20 ∧
      idxPromptShown ts = ts.take 20 ∧
      (20 < ts.length →
        idxPromptNote ts = "\n(Showing 20 of " ++ toString ts.length ++ " transactions)") ∧
      (ts.length ≤ 20 → idxPromptNote ts = "") ∧
      (p0PromptShown ts).length = ts.length := by
  intro ts
  refine ⟨?_, rfl, ?_, ?_, rfl⟩
  · simp [idxPromptShown]
  · intro h; simp [idxPromptNote, h]
  · intro h; simp [idxPromptNote]; omega

/-- Witness for C7: with 21 transactions the index.js prompt carries the
remainder note. -/
theorem claim_C7_witness :
    idxPromptNote (List.replicate 21 exC7) =
      "\n(Showing 20 of " ++ toString (List.replicate 21 exC7).length ++ " transactions)" :=
  (claim_C7_amended (List.replicate 21 exC7)).2.2.1 (by simp)

/-- Witness for C3 at a concrete request. -/
theorem claim_C3_witness :
    p0Insights { transactions := .arr [] } .apiError (fun _ => none) =
      (some { status := 200, insights := some "No transactions available for analysis" },
       false) :=
  (claim_C3 none none .apiError (fun _ => none)).1

/-- Witness for C4 at a concrete two-transaction report body. -/
theorem claim_C4_witness :
    reportTotalLine { transactions := [{ amount := 3 }, { amount := 4 }] } =
      "Total Expenses: $" ++
        toFixed (([{ amount := 3 }, { amount := 4 }] : List Tx).map Tx.amount).sum 2 :=
  (claim_C4 { transactions := [{ amount := 3 }, { amount := 4 }] }).2.1
